import Mathlib

open List

/-!
Verification of the job-recommendation pipeline of this repository.

The definitions below are a shallow embedding of the Python sources:
  * `models.py`   — the pydantic data model (`JobQueryStructured`, `JobListing`,
    `RecommendationResponse`),
  * `api_client.py` — `safe_get`, the provider adapters and the fan-out
    aggregator `scrape_all_platforms`,
  * `main.py`     — the relevance ranker `get_recommendation_logic`.

Modelling conventions:
  * Python dictionaries/JSON payloads are modelled by the inductive `PyVal`;
    absent network responses (connection error, non-success status,
    undecodable body) are modelled as `Option.none` — inside every adapter all
    of these are caught and lead to the listings accumulated so far.
  * Python string truthiness (`not all([...])` on environment variables) is
    modelled by `truthy`; `os.getenv` results are `Option String`.
  * `str.lower` is modelled by `lowerStr` (ASCII case folding, which is what
    every string the program manipulates uses).
  * `a in b` on Python strings (substring test) is modelled by `strIn`, i.e.
    `List.IsInfix` on the character lists.
  * An exception escaping a loop that builds a listing list (pydantic
    validation error on a non-string field, `TypeError` on slicing a
    non-string, the `ValueError` below escaping `safe_get`) makes Python
    return the listings accumulated so far; the per-item constructors
    therefore return `Option JobListing` and the loop stops at the first
    `Option.none`.
  * `safe_get` returns `Option PyVal`: `some` is the value the Python
    function returns, `Option.none` is the one exception that escapes it —
    the `ValueError` of `int(key)` on a digit-property key (such as `²`)
    that is not decimal-parsable, which is absent from the caught
    `(KeyError, TypeError, IndexError)` tuple.
-/

/-- The JSON-like dynamic values handled by the adapters (`api_client.py`).
`PyVal.none` is Python `None`. -/
inductive PyVal where
  | str : String → PyVal
  | int : Int → PyVal
  | none : PyVal
  | list : List PyVal → PyVal
  | dict : List (String × PyVal) → PyVal

/-- Python `value is None`. -/
def isPyNone : PyVal → Bool
  | PyVal.none => true
  | _ => false

/-- Dictionary lookup, `value[key]` on a Python dict (a dict has at most one
binding per key, so the lookup order over the association list is immaterial). -/
def lookupKey : List (String × PyVal) → String → Option PyVal
  | [], _ => Option.none
  | (k, v) :: rest, key => if k = key then some v else lookupKey rest key

/-- Python per-character Unicode digit property, as tested by
`str.isdigit()`.  It is strictly larger than the decimal digits `int()`
accepts: besides the ASCII digits and the decimal (Nd) digits of other
scripts — modelled by the Arabic-Indic block U+0660–U+0669 as the
representative — it also holds for digit-only characters such as the
superscripts `¹ ² ³` (U+00B9, U+00B2, U+00B3), which `int()` rejects with
`ValueError`.  Other Unicode digit characters behave like one of these three
classes; the model keeps one representative class of each kind. -/
def pyCharIsDigit (c : Char) : Bool :=
  c.isDigit || c = '¹' || c = '²' || c = '³' ||
  (0x660 ≤ c.toNat && c.toNat ≤ 0x669)

/-- Python `key.isdigit()`: non-empty and every character has the digit
property. -/
def pyIsDigit (s : String) : Bool := !s.data.isEmpty && s.data.all pyCharIsDigit

/-- Python decimal value of one character for `int()`: defined exactly on the
decimal (Nd) digits; `Option.none` on digit-property characters such as `²`,
on which `int()` raises `ValueError`. -/
def pyDecDigit? (c : Char) : Option Nat :=
  if c.isDigit then some (c.toNat - 48)
  else if 0x660 ≤ c.toNat && c.toNat ≤ 0x669 then some (c.toNat - 0x660)
  else Option.none

/-- Auxiliary decimal fold for `pyInt?`. -/
def pyIntAux : List Char → Nat → Option Nat
  | [], acc => some acc
  | c :: rest, acc =>
    match pyDecDigit? c with
    | some d => pyIntAux rest (acc * 10 + d)
    | Option.none => Option.none

/-- Python `int(key)` on a non-empty digit-property string: `some` of the
decimal value when every character is a decimal digit, `Option.none` (a
raised `ValueError`) otherwise. -/
def pyInt? (s : String) : Option Nat := pyIntAux s.data 0

/-- Python `key_path.split('.')` — auxiliary walker over the characters. -/
def splitDotAux : List Char → List Char → List String
  | [], acc => [String.mk acc]
  | '.' :: rest, acc => String.mk acc :: splitDotAux rest []
  | c :: rest, acc => splitDotAux rest (acc ++ [c])

/-- Python `key_path.split('.')`. -/
def splitDot (s : String) : List String := splitDotAux s.data []

/-- The traversal loop of `safe_get` (`api_client.py` lines 17–25) applied to
an already-split key path; `Option.none` models the one exception that
escapes the function:
  * on a dict, look the key up (an absent key is Python `KeyError`, caught by
    the surrounding `try` — hence `default`);
  * on a list, evaluate `key.isdigit() and len(value) > int(key)`: when
    `isdigit` is false the condition is false (`default`); when it is true,
    `int(key)` runs — on a digit-property key that is not decimal-parsable it
    raises `ValueError`, which is **not** in the caught
    `(KeyError, TypeError, IndexError)` tuple and escapes (`Option.none`);
    otherwise index when in range, else return `default`;
  * on any other value, return `default`;
  * at the end of the path, substitute `default` for `None`. -/
def safeGetKeys : List String → PyVal → PyVal → Option PyVal
  | [], value, default => some (if isPyNone value then default else value)
  | key :: rest, PyVal.dict entries, default =>
    (match lookupKey entries key with
     | some v => safeGetKeys rest v default
     | Option.none => some default)
  | key :: rest, PyVal.list items, default =>
    if pyIsDigit key = true then
      match pyInt? key with
      | Option.none => Option.none
      | some n =>
        if hn : n < items.length then
          safeGetKeys rest (items.get ⟨n, hn⟩) default
        else some default
    else some default
  | _ :: _, _, default => some default

/-- Embeds `safe_get` from `api_client.py` lines 10–27.  `some` is the value
the Python function returns; `Option.none` is the uncaught `ValueError`
raised when a list is indexed with a digit-property key that `int()` cannot
parse (every other failure path — `KeyError`, `TypeError`, `IndexError`, a
non-traversable value — returns `default`). -/
def safe_get (data : PyVal) (key_path : String) (default : PyVal) : Option PyVal :=
  safeGetKeys (splitDot key_path) data default

/-- Embeds `JobQueryStructured` from `models.py`. -/
structure JobQueryStructured where
  skills : List String
  locations : List String
  experience_level : Option String
  job_titles : List String
  search_keywords : List String
deriving DecidableEq, Repr

/-- Embeds `JobListing` from `models.py`. -/
structure JobListing where
  title : String
  company : String
  location : String
  url : String
  source : String
  description_snippet : Option String
deriving DecidableEq, Repr

/-- Embeds `RecommendationResponse` from `models.py`. -/
structure RecommendationResponse where
  structured_query : JobQueryStructured
  total_jobs_found : Nat
  best_matches : List JobListing
  other_jobs : List JobListing
deriving DecidableEq, Repr

/-- Python `s.lower()` (ASCII case folding on the character list). -/
def lowerStr (s : String) : String := String.mk (s.data.map Char.toLower)

/-- Python `needle in hay` on strings: substring containment. -/
def strIn (needle hay : String) : Bool := decide (needle.data <:+: hay.data)

/-- Embeds `priority_sources` from `main.py` line 61. -/
def priority_sources : List String := ["data.gov.in", "api.setu.in", "ncs.gov.in"]

/-- The government-scheme skill names recognised at `main.py` line 65. -/
def scheme_skill_names : List String := ["mgnrega", "pmkvy", "ncs"]

/-- Embeds `extracted_skills` from `main.py` line 60 (a Python set; only membership
and emptiness are ever used, so a list of the lower-cased skills models it). -/
def extracted_skills (q : JobQueryStructured) : List String :=
  q.skills.map lowerStr

/-- Embeds `is_entry_level` from `main.py` line 62. -/
def is_entry_level (q : JobQueryStructured) : Bool :=
  decide (q.experience_level = some "entry-level")

/-- Embeds `has_scheme_keywords` from `main.py` line 65. -/
def has_scheme_keywords (q : JobQueryStructured) : Bool :=
  q.skills.any (fun skill => decide (lowerStr skill ∈ scheme_skill_names))

/-- The lower-cased description, `(job.description_snippet or "").lower()`. -/
def job_desc_lower (job : JobListing) : String :=
  lowerStr (job.description_snippet.getD "")

/-- The branch-selection condition of `main.py` line 67:
`(not extracted_skills or has_scheme_keywords) and is_entry_level`. -/
def branchA_cond (q : JobQueryStructured) : Bool :=
  ((extracted_skills q).isEmpty || has_scheme_keywords q) && is_entry_level q

/-- Membership test of Branch A (`main.py` lines 69–79): a listing goes to
`best_matches` iff its source is a priority source, or some lower-cased skill
token that is not a scheme name occurs in the lower-cased title or
description. -/
def branchA_best (q : JobQueryStructured) (job : JobListing) : Bool :=
  decide (job.source ∈ priority_sources) ||
  ((extracted_skills q).filter
    (fun skill => !decide (skill ∈ scheme_skill_names))).any
    (fun skill => strIn skill (lowerStr job.title) || strIn skill (job_desc_lower job))

/-- Membership test of Branch B (`main.py` lines 82–93):
`(title_match or desc_match) or (is_entry_level and source_match)`. -/
def branchB_best (q : JobQueryStructured) (job : JobListing) : Bool :=
  let title_match := (extracted_skills q).any (fun skill => strIn skill (lowerStr job.title))
  let desc_match := (extracted_skills q).any (fun skill => strIn skill (job_desc_lower job))
  let source_match := decide (job.source ∈ priority_sources)
  (title_match || desc_match) || (is_entry_level q && source_match)

/-- The pre-overflow bucketing of `main.py` lines 67–93: an order-preserving
partition of the aggregated listings by the predicate of the selected branch. -/
def rank_partition (q : JobQueryStructured) (all_jobs : List JobListing) :
    List JobListing × List JobListing :=
  if branchA_cond q then all_jobs.partition (branchA_best q)
  else all_jobs.partition (branchB_best q)

/-- Embeds `MAX_BEST_MATCHES` from `main.py` line 96. -/
def MAX_BEST_MATCHES : Nat := 10

/-- The overflow re-partition loop of `main.py` lines 99–105:
`for job in best_matches: if job.source in priority_sources or
len(new_best) < MAX_BEST_MATCHES: new_best.append(job) else:
moved_to_other.append(job)`. -/
def overflow_loop :
    List JobListing → List JobListing → List JobListing →
    List JobListing × List JobListing
  | [], new_best, moved_to_other => (new_best, moved_to_other)
  | job :: rest, new_best, moved_to_other =>
    if job.source ∈ priority_sources ∨ new_best.length < MAX_BEST_MATCHES then
      overflow_loop rest (new_best ++ [job]) moved_to_other
    else
      overflow_loop rest new_best (moved_to_other ++ [job])

/-- Embeds `get_recommendation_logic` from `main.py` lines 57–115, restricted to the
pure ranking part: the structured query has already been extracted and the
aggregated listings `all_jobs` are given. -/
def get_recommendation_logic (q : JobQueryStructured) (all_jobs : List JobListing) :
    RecommendationResponse :=
  let pre := rank_partition q all_jobs
  let post :=
    if pre.1.length > MAX_BEST_MATCHES then
      let ov := overflow_loop pre.1 [] []
      (ov.1, pre.2 ++ ov.2)
    else pre
  { structured_query := q
    total_jobs_found := all_jobs.length
    best_matches := post.1
    other_jobs := post.2 }

/-! ### Provider adapters (`api_client.py`) -/

/-- The environment variables read by the adapters (`os.getenv`): `Option.none`
models an unset variable. -/
structure Env where
  ADZUNA_APP_ID : Option String
  ADZUNA_APP_KEY : Option String
  JOOBLE_API_KEY : Option String
  THE_MUSE_API_KEY : Option String
  USAJOBS_EMAIL : Option String
  USAJOBS_API_KEY : Option String
  RAPIDAPI_KEY : Option String
  RAPIDAPI_HOST : Option String
  DATA_GOV_IN_API_KEY : Option String
  API_SETU_CLIENT_ID : Option String
  API_SETU_CLIENT_SECRET : Option String
  NCS_API_KEY : Option String
deriving Repr

/-- Python truthiness of an `os.getenv` result: set and non-empty. -/
def truthy : Option String → Bool
  | Option.none => false
  | some s => !s.data.isEmpty

/-- Python `" ".join(l)`. -/
def joinSpace : List String → String
  | [] => ""
  | [s] => s
  | s :: rest => s ++ " " ++ joinSpace rest

/-- The value when it is a Python `str`; `Option.none` models the exception a
non-`str` value provokes at that point (pydantic validation error on a string
field, or `TypeError` when slicing), which aborts the adapter loop. -/
def pyStr? : PyVal → Option String
  | PyVal.str s => some s
  | _ => Option.none

/-- Python `str(v)` as used inside f-strings.  The rendering of containers is
abstracted (no claim depends on it); strings, integers and `None` are exact. -/
def pyToStr : PyVal → String
  | PyVal.str s => s
  | PyVal.int n => toString n
  | PyVal.none => "None"
  | PyVal.list _ => "[object]"
  | PyVal.dict _ => "[object]"

/-- Python `data.get(key, default)`: `Option.none` models the
`AttributeError` raised when `data` is not a dict (caught by the adapter, which
then returns the listings accumulated so far, i.e. `[]`). -/
def dictGet (data : PyVal) (key : String) (default : PyVal) : Option PyVal :=
  match data with
  | PyVal.dict entries => some ((lookupKey entries key).getD default)
  | _ => Option.none

/-- Python `for item in v`: a list iterates its items, a string its characters
(each a one-character string), a dict its keys; anything else raises
`TypeError`, modelled as `Option.none` (caught by the adapter → `[]`). -/
def pyIter : PyVal → Option (List PyVal)
  | PyVal.list items => some items
  | PyVal.str s => some (s.data.map (fun c => PyVal.str (String.mk [c])))
  | PyVal.dict entries => some (entries.map (fun e => PyVal.str e.1))
  | _ => Option.none

/-- Python `s.replace('<br>', ' ')` on the character list: left-to-right,
every occurrence of `<br>` becomes a single space (occurrences of `<br>`
cannot overlap each other). -/
def replace_br : List Char → List Char
  | '<' :: 'b' :: 'r' :: '>' :: rest => ' ' :: replace_br rest
  | c :: rest => c :: replace_br rest
  | [] => []

/-- Boolean substring search for `<br>` (used to state that the HTML
line-break markup has been stripped). -/
def hasBr : List Char → Bool
  | [] => false
  | c :: rest => ['<', 'b', 'r', '>'].isPrefixOf (c :: rest) || hasBr rest

/-- The common listing-building loop of the adapters:
`for item in items: jobs_list.append(JobListing(...))` inside
`try ... except Exception: ...; return jobs_list` — an item whose construction
raises makes the adapter return the listings accumulated so far. -/
def adapterLoop (mk : PyVal → Option JobListing) :
    List PyVal → List JobListing → List JobListing
  | [], acc => acc
  | item :: rest, acc =>
    match mk item with
    | some job => adapterLoop mk rest (acc ++ [job])
    | Option.none => acc

/-- One Remotive item (`api_client.py` lines 55–62): note the description is
sliced to 250 characters, `<br>` is replaced by a space, and `"..."` is
appended. -/
def remotiveItem (item : PyVal) : Option JobListing :=
  ((safe_get item "title" (PyVal.str "N/A")).bind pyStr?).bind fun t =>
  ((safe_get item "company_name" (PyVal.str "N/A")).bind pyStr?).bind fun c =>
  ((safe_get item "candidate_required_location" (PyVal.str "Remote")).bind pyStr?).bind fun l =>
  ((safe_get item "url" (PyVal.str "#")).bind pyStr?).bind fun u =>
  ((safe_get item "description" (PyVal.str "")).bind pyStr?).map fun d =>
    { title := t
      company := c
      location := l
      url := u
      source := "Remotive.io"
      description_snippet :=
        some (String.mk (replace_br (d.data.take 250)) ++ "...") }

/-- Embeds `fetch_remotive_jobs` (`api_client.py` lines 33–71).  `resp` is the parsed
JSON body; `Option.none` covers a request error, a non-200 status, or an
undecodable body — all of which make the Python function return `[]`. -/
def fetch_remotive_jobs (query : JobQueryStructured) (resp : Option PyVal) :
    List JobListing :=
  let _search_term :=
    match query.skills.head? with
    | some s => s
    | Option.none => (query.job_titles.head?).getD "developer"
  match resp with
  | Option.none => []
  | some data =>
    match dictGet data "jobs" (PyVal.list []) with
    | Option.none => []
    | some v =>
      match pyIter v with
      | Option.none => []
      | some items => adapterLoop remotiveItem items []

/-- One Adzuna item (`api_client.py` lines 146–154): the description is passed
through `safe_get` with default `''` and **not** truncated or stripped. -/
def adzunaItem (item : PyVal) : Option JobListing :=
  ((safe_get item "title" (PyVal.str "N/A")).bind pyStr?).bind fun t =>
  ((safe_get item "company.display_name" (PyVal.str "N/A")).bind pyStr?).bind fun c =>
  ((safe_get item "location.display_name" (PyVal.str "N/A")).bind pyStr?).bind fun l =>
  ((safe_get item "redirect_url" (PyVal.str "#")).bind pyStr?).bind fun u =>
  ((safe_get item "description" (PyVal.str "")).bind pyStr?).map fun d =>
    { title := t
      company := c
      location := l
      url := u
      source := "Adzuna"
      description_snippet := some d }

/-- Embeds `fetch_adzuna_jobs` (`api_client.py` lines 114–162).  The overall
`Option` is `Option.none` only for the one uncaught exception of the Python
code: `query.job_titles[0]` on an empty list at line 128 (outside the `try`).
A missing credential returns `some []` before anything else happens. -/
def fetch_adzuna_jobs (env : Env) (query : JobQueryStructured)
    (resp : Option PyVal) : Option (List JobListing) :=
  if !(truthy env.ADZUNA_APP_ID && truthy env.ADZUNA_APP_KEY) then some []
  else
    match (if !query.skills.isEmpty then some (joinSpace query.skills)
           else query.job_titles.head?) with
    | Option.none => Option.none
    | some _search_term =>
      some (match resp with
            | Option.none => []
            | some data =>
              match dictGet data "results" (PyVal.list []) with
              | Option.none => []
              | some v =>
                match pyIter v with
                | Option.none => []
                | some items => adapterLoop adzunaItem items [])

/-- One Jooble item (`api_client.py` lines 189–197). -/
def joobleItem (item : PyVal) : Option JobListing :=
  ((safe_get item "title" (PyVal.str "N/A")).bind pyStr?).bind fun t =>
  ((safe_get item "company" (PyVal.str "N/A")).bind pyStr?).bind fun c =>
  ((safe_get item "location" (PyVal.str "N/A")).bind pyStr?).bind fun l =>
  ((safe_get item "link" (PyVal.str "#")).bind pyStr?).bind fun u =>
  ((safe_get item "snippet" (PyVal.str "")).bind pyStr?).map fun d =>
    { title := t
      company := c
      location := l
      url := u
      source := "Jooble"
      description_snippet := some d }

/-- Embeds `fetch_jooble_jobs` (`api_client.py` lines 164–205).  As for Adzuna, the
only uncaught exception is `query.job_titles[0]` on an empty list (line 180);
a missing `JOOBLE_API_KEY` returns `some []` first. -/
def fetch_jooble_jobs (env : Env) (query : JobQueryStructured)
    (resp : Option PyVal) : Option (List JobListing) :=
  if !truthy env.JOOBLE_API_KEY then some []
  else
    match (if !query.skills.isEmpty then some (joinSpace query.skills)
           else query.job_titles.head?) with
    | Option.none => Option.none
    | some _keywords =>
      some (match resp with
            | Option.none => []
            | some data =>
              match dictGet data "jobs" (PyVal.list []) with
              | Option.none => []
              | some v =>
                match pyIter v with
                | Option.none => []
                | some items => adapterLoop joobleItem items [])

/-- One item of The Muse response (`api_client.py` lines 236–244): the
contents are stripped of `<br>` first and then sliced to 250 characters,
before the ellipsis is appended (the opposite order to Remotive). -/
def museItem (item : PyVal) : Option JobListing :=
  ((safe_get item "name" (PyVal.str "N/A")).bind pyStr?).bind fun t =>
  ((safe_get item "company.name" (PyVal.str "N/A")).bind pyStr?).bind fun c =>
  ((safe_get item "locations.0.name" (PyVal.str "N/A")).bind pyStr?).bind fun l =>
  ((safe_get item "refs.landing_page" (PyVal.str "#")).bind pyStr?).bind fun u =>
  ((safe_get item "contents" (PyVal.str "...")).bind pyStr?).map fun d =>
    { title := t
      company := c
      location := l
      url := u
      source := "The Muse"
      description_snippet :=
        some (String.mk ((replace_br d.data).take 250) ++ "...") }

/-- Embeds `fetch_the_muse_jobs` (`api_client.py` lines 207–252).  Every
statement that could raise sits inside the `try`, so the function itself
never raises; a missing `THE_MUSE_API_KEY` returns `[]` first. -/
def fetch_the_muse_jobs (env : Env) (query : JobQueryStructured)
    (resp : Option PyVal) : List JobListing :=
  if !truthy env.THE_MUSE_API_KEY then []
  else
    let _category := query.skills.head?
    let _location := query.locations.head?
    let _level := decide (query.experience_level = some "entry-level")
    match resp with
    | Option.none => []
    | some data =>
      match dictGet data "results" (PyVal.list []) with
      | Option.none => []
      | some v =>
        match pyIter v with
        | Option.none => []
        | some items => adapterLoop museItem items []

/-- One USAJobs (authenticated) item (`api_client.py` lines 285–294):
the fields are read from the nested `MatchedObjectDescriptor` (absent or
non-dict: `item.get` raises `AttributeError`, caught by the adapter's
`except Exception` — modelled by `dictGet`'s `Option.none`), and the
`JobSummary` is passed through without truncation or stripping. -/
def usajobsItem (item : PyVal) : Option JobListing :=
  (dictGet item "MatchedObjectDescriptor" (PyVal.dict [])).bind fun job =>
  ((safe_get job "PositionTitle" (PyVal.str "N/A")).bind pyStr?).bind fun t =>
  ((safe_get job "DepartmentName" (PyVal.str "N/A")).bind pyStr?).bind fun c =>
  ((safe_get job "PositionLocationDisplay" (PyVal.str "N/A")).bind pyStr?).bind fun l =>
  ((safe_get job "PositionURI" (PyVal.str "#")).bind pyStr?).bind fun u =>
  ((safe_get job "UserArea.Details.JobSummary" (PyVal.str "")).bind pyStr?).map fun d =>
    { title := t
      company := c
      location := l
      url := u
      source := "USAJobs.gov"
      description_snippet := some d }

/-- Embeds `fetch_usajobs_auth` (`api_client.py` lines 254–302).  As for
Adzuna and Jooble, the only uncaught exception is `query.job_titles[0]` on an
empty list (line 274, outside the `try`); missing `USAJOBS_EMAIL` or
`USAJOBS_API_KEY` returns `some []` first. -/
def fetch_usajobs_auth (env : Env) (query : JobQueryStructured)
    (resp : Option PyVal) : Option (List JobListing) :=
  if !(truthy env.USAJOBS_EMAIL && truthy env.USAJOBS_API_KEY) then some []
  else
    match (if !query.skills.isEmpty then some (joinSpace query.skills)
           else query.job_titles.head?) with
    | Option.none => Option.none
    | some _keyword =>
      some (match resp with
            | Option.none => []
            | some data =>
              match dictGet data "SearchResult" (PyVal.dict []) with
              | Option.none => []
              | some sr =>
                match dictGet sr "SearchResultItems" (PyVal.list []) with
                | Option.none => []
                | some v =>
                  match pyIter v with
                  | Option.none => []
                  | some items => adapterLoop usajobsItem items [])

/-- One Mantiks item (`api_client.py` lines 339–347): the description is
sliced to 250 characters and the ellipsis appended, with no `<br>`
stripping. -/
def mantiksItem (item : PyVal) : Option JobListing :=
  ((safe_get item "job_title" (PyVal.str "N/A")).bind pyStr?).bind fun t =>
  ((safe_get item "company_name" (PyVal.str "N/A")).bind pyStr?).bind fun c =>
  ((safe_get item "location" (PyVal.str "N/A")).bind pyStr?).bind fun l =>
  ((safe_get item "job_url" (PyVal.str "#")).bind pyStr?).bind fun u =>
  ((safe_get item "description" (PyVal.str "")).bind pyStr?).map fun d =>
    { title := t
      company := c
      location := l
      url := u
      source := "Mantiks (India)"
      description_snippet := some (String.mk (d.data.take 250) ++ "...") }

/-- Embeds `fetch_mantiks_jobs` (`api_client.py` lines 308–355).  The only
uncaught exception is `query.job_titles[0]` on an empty list (line 328,
outside the `try`); missing `RAPIDAPI_KEY` or `RAPIDAPI_HOST` returns
`some []` first. -/
def fetch_mantiks_jobs (env : Env) (query : JobQueryStructured)
    (resp : Option PyVal) : Option (List JobListing) :=
  if !(truthy env.RAPIDAPI_KEY && truthy env.RAPIDAPI_HOST) then some []
  else
    match (if !query.skills.isEmpty then some (joinSpace query.skills)
           else query.job_titles.head?) with
    | Option.none => Option.none
    | some _q =>
      some (match resp with
            | Option.none => []
            | some data =>
              match dictGet data "data" (PyVal.list []) with
              | Option.none => []
              | some v =>
                match pyIter v with
                | Option.none => []
                | some items => adapterLoop mantiksItem items [])

/-- One MGNREGA record (`api_client.py` lines 389–396): every field is built
with f-strings, which `str()`-convert the `safe_get` results, so with fixed
ASCII key paths the construction never raises; the `Option` only threads the
`safe_get` exception path of the embedding (the same `district_name` lookup
is interpolated twice and, being pure, is bound once). -/
def mgnregaItem (item : PyVal) : Option JobListing :=
  (safe_get item "district_name" (PyVal.str "N/A")).bind fun dn =>
  (safe_get item "state_name" (PyVal.str "N/A")).bind fun sn =>
  (safe_get item "total_no_of_workers" (PyVal.str "N/A")).bind fun tw =>
  (safe_get item "total_no_of_jobcards_issued" (PyVal.str "N/A")).map fun tj =>
    { title := "MGNREGA Rural Work (" ++ pyToStr dn ++ ")"
      company := "Govt. of India (MGNREGA)"
      location := pyToStr dn ++ ", " ++ pyToStr sn
      url := "https://nrega.nic.in/"
      source := "data.gov.in"
      description_snippet :=
        some ("Registered Workers: " ++ pyToStr tw ++
          ". Job Cards Issued: " ++ pyToStr tj ++
          ". This is statistical data.") }

/-- Embeds `fetch_mgnrega_data` (`api_client.py` lines 357–404). -/
def fetch_mgnrega_data (env : Env) (query : JobQueryStructured)
    (resp : Option PyVal) : List JobListing :=
  if !truthy env.DATA_GOV_IN_API_KEY then []
  else
    let _district_filter := query.locations.head?
    match resp with
    | Option.none => []
    | some data =>
      match dictGet data "records" (PyVal.list []) with
      | Option.none => []
      | some v =>
        match pyIter v with
        | Option.none => []
        | some items => adapterLoop mgnregaItem items []

/-- Embeds `fetch_pmkvy_centers` (`api_client.py` lines 406–447): after the
credential check a single synthetic placeholder listing is returned, with no
network call. -/
def fetch_pmkvy_centers (env : Env) (query : JobQueryStructured) :
    List JobListing :=
  if !(truthy env.API_SETU_CLIENT_ID && truthy env.API_SETU_CLIENT_SECRET) then []
  else
    let state_name := (query.locations.head?).getD "Uttar Pradesh"
    [{ title := "Find PMKVY Skilling Centers near " ++ state_name
       company := "Govt. of India (Skill India)"
       location := state_name
       url := "http://pmkvyofficial.org"
       source := "api.setu.in"
       description_snippet :=
         some "This API shows locations for government-sponsored skill training (PMKVY). Full API integration requires OAuth." }]

/-- Embeds `fetch_ncs_jobs` (`api_client.py` lines 449–473): after the credential
check a single synthetic placeholder listing is returned. -/
def fetch_ncs_jobs (env : Env) (query : JobQueryStructured) : List JobListing :=
  if !truthy env.NCS_API_KEY then []
  else
    [{ title := "Jobs on National Career Service Portal"
       company := "Govt. of India (NCS)"
       location := (query.locations.head?).getD "India"
       url := "https://www.ncs.gov.in/"
       source := "ncs.gov.in"
       description_snippet :=
         some "This is a placeholder for jobs from the official Govt. of India job portal. Go to the URL to search for live vacancies." }]

/-! ### The fan-out aggregator (`api_client.py` lines 480–516) -/

/-- The terminal state of one gathered adapter task under
`asyncio.gather(*tasks, return_exceptions=True)`: either a listing list
(success, possibly empty), or an exception object. -/
inductive FetchOutcome where
  | res : List JobListing → FetchOutcome
  | exc : FetchOutcome

/-- The collection loop of `scrape_all_platforms` (`api_client.py` lines
510–516): results that are lists are concatenated in task order, exceptions
are logged and contribute nothing. -/
def scrape_all_platforms : List FetchOutcome → List JobListing
  | [] => []
  | FetchOutcome.res jobs :: rest => jobs ++ scrape_all_platforms rest
  | FetchOutcome.exc :: rest => scrape_all_platforms rest

/-- The length a gathered outcome contributes. -/
def outcomeLen : FetchOutcome → Nat
  | FetchOutcome.res jobs => jobs.length
  | FetchOutcome.exc => 0

/-- The listing list of a successful outcome. -/
def outcomeRes? : FetchOutcome → Option (List JobListing)
  | FetchOutcome.res jobs => some jobs
  | FetchOutcome.exc => Option.none

/-! ### Derived predicates and concrete inputs used by the claims -/

/-- Tests `job.source in priority_sources` as a Boolean predicate. -/
def is_priority_source (job : JobListing) : Bool :=
  decide (job.source ∈ priority_sources)

/-- The per-listing predicate the ranker partitions by (Branch A or Branch B,
determined by `branchA_cond`). -/
def rank_pred (q : JobQueryStructured) (job : JobListing) : Bool :=
  if branchA_cond q then branchA_best q job else branchB_best q job

/-- Query used for the C1 counterexample and witness: one concrete skill,
mid-level (Branch B). -/
def qC1 : JobQueryStructured :=
  { skills := ["a"]
    locations := []
    experience_level := some "mid-level"
    job_titles := ["Any"]
    search_keywords := [] }

/-- A non-priority listing whose title matches the skill of `qC1`. -/
def jobC1 : JobListing :=
  { title := "a", company := "c", location := "l", url := "u", source := "X"
    description_snippet := Option.none }

/-- Eleven identical matching listings: all land in the pre-overflow best
bucket, so the overflow loop moves the eleventh copy to `other_jobs`. -/
def jobsC1 : List JobListing := List.replicate 11 jobC1

/-- Query used for the C2 counterexample and witness (Branch B). -/
def qC2 : JobQueryStructured :=
  { skills := ["a"]
    locations := []
    experience_level := some "mid-level"
    job_titles := ["Any"]
    search_keywords := [] }

/-- A matching non-priority listing. -/
def jobC2n : JobListing :=
  { title := "a", company := "c", location := "l", url := "u", source := "X"
    description_snippet := Option.none }

/-- A matching priority-source listing. -/
def jobC2p : JobListing :=
  { title := "a", company := "c", location := "l", url := "u"
    source := "data.gov.in", description_snippet := Option.none }

/-- Ten matching non-priority listings followed by one priority listing: the
overflow loop keeps all eleven. -/
def jobsC2 : List JobListing := List.replicate 10 jobC2n ++ [jobC2p]

/-- The scenario query of C3: `skills=[]`, `job_titles=["Any Job"]`,
`experience_level="entry-level"`. -/
def qC3 : JobQueryStructured :=
  { skills := []
    locations := []
    experience_level := some "entry-level"
    job_titles := ["Any Job"]
    search_keywords := [] }

/-- The C3 scenario listing from source `data.gov.in`. -/
def jGovC3 : JobListing :=
  { title := "MGNREGA Rural Work (Agra)", company := "Govt. of India (MGNREGA)"
    location := "Agra", url := "https://nrega.nic.in/", source := "data.gov.in"
    description_snippet := some "Statistical data." }

/-- The C3 scenario listing from source `Remotive.io` with no skill overlap. -/
def jRemC3 : JobListing :=
  { title := "Senior Haskell Engineer", company := "Acme", location := "Remote"
    url := "#", source := "Remotive.io", description_snippet := some "Compilers." }

/-- The scenario query of C4: `skills=["driver"]`, mid-level. -/
def qC4 : JobQueryStructured :=
  { skills := ["driver"]
    locations := []
    experience_level := some "mid-level"
    job_titles := ["Driver"]
    search_keywords := [] }

/-- The C4 scenario listing titled Delivery Driver Needed. -/
def jDrvC4 : JobListing :=
  { title := "Delivery Driver Needed", company := "QuickShip", location := "Agra"
    url := "#", source := "Jooble", description_snippet := some "Deliver parcels." }

/-- The C4 scenario non-priority listing with no driver mention. -/
def jOffC4 : JobListing :=
  { title := "Office Assistant", company := "Acme", location := "Agra"
    url := "#", source := "Jooble", description_snippet := some "Filing and typing." }

/-- An environment with no variable set (C7 witness). -/
def envNone : Env :=
  { ADZUNA_APP_ID := Option.none
    ADZUNA_APP_KEY := Option.none
    JOOBLE_API_KEY := Option.none
    THE_MUSE_API_KEY := Option.none
    USAJOBS_EMAIL := Option.none
    USAJOBS_API_KEY := Option.none
    RAPIDAPI_KEY := Option.none
    RAPIDAPI_HOST := Option.none
    DATA_GOV_IN_API_KEY := Option.none
    API_SETU_CLIENT_ID := Option.none
    API_SETU_CLIENT_SECRET := Option.none
    NCS_API_KEY := Option.none }

/-- A throwaway query for the adapter witnesses. -/
def qAd : JobQueryStructured :=
  { skills := ["x"]
    locations := ["Agra"]
    experience_level := Option.none
    job_titles := ["T"]
    search_keywords := [] }

/-- Environment with only the Adzuna credentials set (C8 counterexample). -/
def envC8 : Env :=
  { ADZUNA_APP_ID := some "id"
    ADZUNA_APP_KEY := some "key"
    JOOBLE_API_KEY := Option.none
    THE_MUSE_API_KEY := Option.none
    USAJOBS_EMAIL := Option.none
    USAJOBS_API_KEY := Option.none
    RAPIDAPI_KEY := Option.none
    RAPIDAPI_HOST := Option.none
    DATA_GOV_IN_API_KEY := Option.none
    API_SETU_CLIENT_ID := Option.none
    API_SETU_CLIENT_SECRET := Option.none
    NCS_API_KEY := Option.none }

/-- A 260-character description containing `<br>` markup. -/
def brStrC8 : String := String.join (List.replicate 26 "ab<br>cdef")

/-- An Adzuna response item with the long `<br>`-laden description. -/
def itemC8 : PyVal := PyVal.dict [("description", PyVal.str brStrC8)]

/-- The Adzuna response wrapping `itemC8`. -/
def respC8 : Option PyVal := some (PyVal.dict [("results", PyVal.list [itemC8])])

/-- The listing Adzuna emits for `itemC8`: the description is passed through
unmodified. -/
def listingC8 : JobListing :=
  { title := "N/A", company := "N/A", location := "N/A", url := "#"
    source := "Adzuna", description_snippet := some brStrC8 }

/-- A Remotive response item whose description contains `<br>` (C8 witness). -/
def itemC8w : PyVal :=
  PyVal.dict [("description", PyVal.str "ab<br>cdef"), ("title", PyVal.str "T")]

/-- The Remotive response wrapping `itemC8w`. -/
def respC8w : Option PyVal := some (PyVal.dict [("jobs", PyVal.list [itemC8w])])

/-- The listing Remotive emits for `itemC8w`: truncated, stripped, with the
ellipsis appended. -/
def jobC8w : JobListing :=
  { title := "T", company := "N/A", location := "Remote", url := "#"
    source := "Remotive.io", description_snippet := some "ab cdef..." }

/-- Query used for the C9 counterexample (Branch B). -/
def qC9 : JobQueryStructured :=
  { skills := ["a"]
    locations := []
    experience_level := some "mid-level"
    job_titles := ["Any"]
    search_keywords := [] }

/-- A matching non-priority filler listing (C9). -/
def jobC9a : JobListing :=
  { title := "a", company := "c", location := "l", url := "u", source := "X"
    description_snippet := Option.none }

/-- The matching listing that the overflow loop displaces (C9). -/
def jobC9x : JobListing :=
  { title := "ax", company := "c", location := "l", url := "u", source := "X"
    description_snippet := Option.none }

/-- The non-matching listing that lands in the pre-overflow other bucket (C9). -/
def jobC9y : JobListing :=
  { title := "b", company := "c", location := "l", url := "u", source := "X"
    description_snippet := Option.none }

/-- Input for C9: `jobC9x` precedes `jobC9y`, both end in `other_jobs`, but
the displaced `jobC9x` is appended after `jobC9y`. -/
def jobsC9 : List JobListing := List.replicate 10 jobC9a ++ [jobC9x, jobC9y]

/-- Environment with the three government-adapter credentials set (C10). -/
def envC10 : Env :=
  { ADZUNA_APP_ID := Option.none
    ADZUNA_APP_KEY := Option.none
    JOOBLE_API_KEY := Option.none
    THE_MUSE_API_KEY := Option.none
    USAJOBS_EMAIL := Option.none
    USAJOBS_API_KEY := Option.none
    RAPIDAPI_KEY := Option.none
    RAPIDAPI_HOST := Option.none
    DATA_GOV_IN_API_KEY := some "k"
    API_SETU_CLIENT_ID := some "i"
    API_SETU_CLIENT_SECRET := some "s"
    NCS_API_KEY := some "n" }

/-- An MGNREGA record item (C10 witness). -/
def itemC10 : PyVal := PyVal.dict [("district_name", PyVal.str "Agra")]

/-- The MGNREGA response wrapping `itemC10`. -/
def respC10 : Option PyVal := some (PyVal.dict [("records", PyVal.list [itemC10])])

/-- The listing the MGNREGA adapter emits for `itemC10` (absent fields fall
back to the `safe_get` default `N/A`). -/
def jobMgC10 : JobListing :=
  { title := "MGNREGA Rural Work (Agra)"
    company := "Govt. of India (MGNREGA)"
    location := "Agra, N/A"
    url := "https://nrega.nic.in/"
    source := "data.gov.in"
    description_snippet :=
      some "Registered Workers: N/A. Job Cards Issued: N/A. This is statistical data." }

/-- The placeholder listing the PMKVY adapter emits for `qAd` (C10 witness). -/
def jobPmkvyC10 : JobListing :=
  { title := "Find PMKVY Skilling Centers near Agra"
    company := "Govt. of India (Skill India)"
    location := "Agra", url := "http://pmkvyofficial.org", source := "api.setu.in"
    description_snippet :=
      some "This API shows locations for government-sponsored skill training (PMKVY). Full API integration requires OAuth." }

/-- The placeholder listing the NCS adapter emits for `qAd` (C10 witness). -/
def jobNcsC10 : JobListing :=
  { title := "Jobs on National Career Service Portal"
    company := "Govt. of India (NCS)"
    location := "Agra", url := "https://www.ncs.gov.in/", source := "ncs.gov.in"
    description_snippet :=
      some "This is a placeholder for jobs from the official Govt. of India job portal. Go to the URL to search for live vacancies." }

/-! ### Helper lemmas about the ranker -/

/-- The pre-overflow bucketing is the order-preserving partition by
`rank_pred`. -/
theorem rank_partition_eq (q : JobQueryStructured) (jobs : List JobListing) :
    rank_partition q jobs =
      (jobs.filter (rank_pred q), jobs.filter (fun j => !rank_pred q j)) := by
  unfold rank_partition rank_pred
  by_cases h : branchA_cond q = true
  · simp only [h, if_true, List.partition_eq_filter_filter]
    exact Prod.ext rfl (List.filter_congr (fun a _ => rfl))
  · simp only [Bool.not_eq_true] at h
    simp only [h, Bool.false_eq_true, if_false, List.partition_eq_filter_filter]
    exact Prod.ext rfl (List.filter_congr (fun a _ => rfl))

/-- The response fields in the overflow case. -/
theorem logic_overflow (q : JobQueryStructured) (jobs : List JobListing)
    (h : (rank_partition q jobs).1.length > MAX_BEST_MATCHES) :
    (get_recommendation_logic q jobs).best_matches =
      (overflow_loop (rank_partition q jobs).1 [] []).1 ∧
    (get_recommendation_logic q jobs).other_jobs =
      (rank_partition q jobs).2 ++ (overflow_loop (rank_partition q jobs).1 [] []).2 := by
  unfold get_recommendation_logic
  simp [h]

/-- The response fields in the no-overflow case. -/
theorem logic_no_overflow (q : JobQueryStructured) (jobs : List JobListing)
    (h : ¬ (rank_partition q jobs).1.length > MAX_BEST_MATCHES) :
    (get_recommendation_logic q jobs).best_matches = (rank_partition q jobs).1 ∧
    (get_recommendation_logic q jobs).other_jobs = (rank_partition q jobs).2 := by
  unfold get_recommendation_logic
  simp [h]

/-- Field `total_jobs_found` is the length of the aggregate input. -/
theorem logic_total (q : JobQueryStructured) (jobs : List JobListing) :
    (get_recommendation_logic q jobs).total_jobs_found = jobs.length := rfl

/-- The two output lists of the overflow loop are, together, a permutation of
the accumulators and the input. -/
theorem overflow_loop_perm (l : List JobListing) :
    ∀ nb mv : List JobListing,
      (overflow_loop l nb mv).1 ++ (overflow_loop l nb mv).2 ~ (nb ++ mv) ++ l := by
  induction l with
  | nil => intro nb mv; simp [overflow_loop]
  | cons j rest ih =>
    intro nb mv
    simp only [overflow_loop]
    split
    · refine (ih (nb ++ [j]) mv).trans ?_
      calc ((nb ++ [j]) ++ mv) ++ rest
          = nb ++ (j :: (mv ++ rest)) := by simp
        _ ~ nb ++ (mv ++ (j :: rest)) := List.Perm.append_left nb List.perm_middle.symm
        _ = (nb ++ mv) ++ (j :: rest) := by simp
    · refine (ih nb (mv ++ [j])).trans ?_
      simp

/-- The kept part of the overflow loop extends the accumulator by an
order-preserving sublist of the input. -/
theorem overflow_loop_fst_sub (l : List JobListing) :
    ∀ nb mv : List JobListing,
      ∃ s, (overflow_loop l nb mv).1 = nb ++ s ∧ s <+ l := by
  induction l with
  | nil => intro nb mv; exact ⟨[], by simp [overflow_loop]⟩
  | cons j rest ih =>
    intro nb mv
    simp only [overflow_loop]
    split
    · obtain ⟨s, hs, hsub⟩ := ih (nb ++ [j]) mv
      exact ⟨j :: s, by simp [hs], hsub.cons₂ j⟩
    · obtain ⟨s, hs, hsub⟩ := ih nb (mv ++ [j])
      exact ⟨s, hs, hsub.cons j⟩

/-- The moved part of the overflow loop extends the accumulator by an
order-preserving sublist of the input. -/
theorem overflow_loop_snd_sub (l : List JobListing) :
    ∀ nb mv : List JobListing,
      ∃ s, (overflow_loop l nb mv).2 = mv ++ s ∧ s <+ l := by
  induction l with
  | nil => intro nb mv; exact ⟨[], by simp [overflow_loop]⟩
  | cons j rest ih =>
    intro nb mv
    simp only [overflow_loop]
    split
    · obtain ⟨s, hs, hsub⟩ := ih (nb ++ [j]) mv
      exact ⟨s, hs, hsub.cons j⟩
    · obtain ⟨s, hs, hsub⟩ := ih nb (mv ++ [j])
      exact ⟨j :: s, by simp [hs], hsub.cons₂ j⟩

/-- Every priority-source listing is kept by the overflow loop. -/
theorem overflow_loop_countP_prio (l : List JobListing) :
    ∀ nb mv : List JobListing,
      ((overflow_loop l nb mv).1).countP is_priority_source =
        nb.countP is_priority_source + l.countP is_priority_source := by
  induction l with
  | nil => intro nb mv; simp [overflow_loop]
  | cons j rest ih =>
    intro nb mv
    simp only [overflow_loop]
    split
    · rw [ih (nb ++ [j]) mv]
      simp only [List.countP_append, List.countP_cons]
      by_cases hj : is_priority_source j = true
      · simp [hj]; omega
      · simp only [Bool.not_eq_true] at hj
        simp [hj]
    · rename_i hcond
      have hj : is_priority_source j = false := by
        simp only [is_priority_source, decide_eq_false_iff_not]
        intro hmem
        exact hcond (Or.inl hmem)
      rw [ih nb (mv ++ [j])]
      simp [List.countP_cons, hj]

/-- The overflow loop keeps at most `MAX_BEST_MATCHES` non-priority listings
(on top of those already in the accumulator). -/
theorem overflow_loop_countP_nonprio (l : List JobListing) :
    ∀ nb mv : List JobListing,
      ((overflow_loop l nb mv).1).countP (fun j => !is_priority_source j) ≤
        max (nb.countP (fun j => !is_priority_source j)) MAX_BEST_MATCHES := by
  induction l with
  | nil => intro nb mv; simp [overflow_loop]
  | cons j rest ih =>
    intro nb mv
    simp only [overflow_loop]
    split
    · rename_i hcond
      refine (ih (nb ++ [j]) mv).trans ?_
      by_cases hj : is_priority_source j = true
      · have hcount : (nb ++ [j]).countP (fun j => !is_priority_source j)
            = nb.countP (fun j => !is_priority_source j) := by
          simp [List.countP_append, List.countP_cons, hj]
        rw [hcount]
      · simp only [Bool.not_eq_true] at hj
        have hlen : nb.length < MAX_BEST_MATCHES := by
          rcases hcond with hmem | hlen
          · exact absurd hmem (by simpa [is_priority_source] using hj)
          · exact hlen
        have hle : nb.countP (fun j => !is_priority_source j) ≤ nb.length :=
          List.countP_le_length _
        have hcount : (nb ++ [j]).countP (fun j => !is_priority_source j)
            = nb.countP (fun j => !is_priority_source j) + 1 := by
          simp [List.countP_append, List.countP_cons, hj]
        rw [hcount]
        omega
    · exact ih nb (mv ++ [j])

/-! ### C1 — partition invariant of the ranker -/

/-- C1, counterexample.  The claim asserts that `best_matches` and
`other_jobs` are disjoint for every ranker input.  On eleven identical
matching listings the overflow loop keeps ten copies in `best_matches` and
moves the eleventh to `other_jobs`, so the same listing value occurs in both
buckets and the buckets are not disjoint. -/
theorem C1_counterexample :
    jobC1 ∈ (get_recommendation_logic qC1 jobsC1).best_matches ∧
    jobC1 ∈ (get_recommendation_logic qC1 jobsC1).other_jobs := by
  constructor
  · decide
  · decide

/-- C1, amended.  For every ranker input, `best_matches ++ other_jobs` is a
permutation of the input (each input occurrence lands in exactly one bucket)
and their combined length equals `total_jobs_found`; when the input contains
no duplicate listings the two buckets are disjoint. -/
theorem C1_amended (q : JobQueryStructured) (jobs : List JobListing) :
    ((get_recommendation_logic q jobs).best_matches ++
        (get_recommendation_logic q jobs).other_jobs ~ jobs) ∧
    (get_recommendation_logic q jobs).best_matches.length +
        (get_recommendation_logic q jobs).other_jobs.length =
      (get_recommendation_logic q jobs).total_jobs_found ∧
    (jobs.Nodup →
      (get_recommendation_logic q jobs).best_matches.Disjoint
        (get_recommendation_logic q jobs).other_jobs) := by
  have hfil := rank_partition_eq q jobs
  have hbase : (rank_partition q jobs).1 ++ (rank_partition q jobs).2 ~ jobs := by
    rw [hfil]
    exact jobs.filter_append_perm (rank_pred q)
  have hmain : (get_recommendation_logic q jobs).best_matches ++
      (get_recommendation_logic q jobs).other_jobs ~ jobs ∧
      (jobs.Nodup →
        (get_recommendation_logic q jobs).best_matches.Disjoint
          (get_recommendation_logic q jobs).other_jobs) := by
    by_cases hov : (rank_partition q jobs).1.length > MAX_BEST_MATCHES
    · obtain ⟨hb, ho⟩ := logic_overflow q jobs hov
      have hperm0 : (overflow_loop (rank_partition q jobs).1 [] []).1 ++
          (overflow_loop (rank_partition q jobs).1 [] []).2 ~
            (rank_partition q jobs).1 := by
        simpa using overflow_loop_perm (rank_partition q jobs).1 [] []
      constructor
      · rw [hb, ho]
        calc (overflow_loop (rank_partition q jobs).1 [] []).1 ++
              ((rank_partition q jobs).2 ++
                (overflow_loop (rank_partition q jobs).1 [] []).2)
            ~ (overflow_loop (rank_partition q jobs).1 [] []).1 ++
                ((overflow_loop (rank_partition q jobs).1 [] []).2 ++
                  (rank_partition q jobs).2) :=
              List.Perm.append_left _ List.perm_append_comm
          _ = ((overflow_loop (rank_partition q jobs).1 [] []).1 ++
                (overflow_loop (rank_partition q jobs).1 [] []).2) ++
                  (rank_partition q jobs).2 := (List.append_assoc _ _ _).symm
          _ ~ (rank_partition q jobs).1 ++ (rank_partition q jobs).2 :=
              hperm0.append_right _
          _ ~ jobs := hbase
      · intro hnd x hxb hxo
        obtain ⟨s, hs, hsub⟩ := overflow_loop_fst_sub (rank_partition q jobs).1 [] []
        have hxb1 : x ∈ (rank_partition q jobs).1 := by
          rw [hb, hs] at hxb
          simp only [List.nil_append] at hxb
          exact hsub.subset hxb
        have hPx : rank_pred q x = true := by
          rw [hfil] at hxb1
          exact List.of_mem_filter hxb1
        rw [ho] at hxo
        rcases List.mem_append.1 hxo with hxo2 | hxo2
        · rw [hfil] at hxo2
          have := List.of_mem_filter hxo2
          simp [hPx] at this
        · have hnd1 : (rank_partition q jobs).1.Nodup := by
            rw [hfil]
            exact hnd.filter _
          have hnd2 : ((overflow_loop (rank_partition q jobs).1 [] []).1 ++
              (overflow_loop (rank_partition q jobs).1 [] []).2).Nodup :=
            hperm0.symm.nodup hnd1
          have hdisj := (List.nodup_append.1 hnd2).2.2
          rw [hb] at hxb
          exact hdisj hxb hxo2
    · obtain ⟨hb, ho⟩ := logic_no_overflow q jobs hov
      constructor
      · rw [hb, ho]
        exact hbase
      · intro _ x hxb hxo
        rw [hb, hfil] at hxb
        rw [ho, hfil] at hxo
        have h1 := List.of_mem_filter hxb
        have h2 := List.of_mem_filter hxo
        simp [h1] at h2
  refine ⟨hmain.1, ?_, hmain.2⟩
  have := hmain.1.length_eq
  rw [logic_total]
  simpa using this

/-- C1, witness: the amended statement evaluated on a concrete
duplicate-free input. -/
theorem C1_witness :
    ((get_recommendation_logic qC1 [jobC1]).best_matches ++
        (get_recommendation_logic qC1 [jobC1]).other_jobs ~ [jobC1]) ∧
    (get_recommendation_logic qC1 [jobC1]).best_matches.Disjoint
      (get_recommendation_logic qC1 [jobC1]).other_jobs :=
  ⟨(C1_amended qC1 [jobC1]).1, (C1_amended qC1 [jobC1]).2.2 (by decide)⟩

/-! ### C2 — the overflow rule -/

/-- C2, counterexample.  The claim asserts that with more than 10 best-match
candidates the output `best_matches` never exceeds 10 unless the
priority-source listings alone exceed 10.  On ten matching non-priority
listings followed by one matching priority listing, the pre-overflow bucket
has 11 candidates, only one of which is priority-source, yet the loop keeps
all 11 (the ten non-priority ones fill the cap first and the priority one is
kept unconditionally). -/
theorem C2_counterexample :
    (rank_partition qC2 jobsC2).1.length = 11 ∧
    (rank_partition qC2 jobsC2).1.countP is_priority_source = 1 ∧
    (get_recommendation_logic qC2 jobsC2).best_matches.length = 11 := by
  refine ⟨by decide, by decide, by decide⟩

/-- C2, amended.  When the pre-overflow best bucket exceeds the cap, the
output `best_matches` is the overflow loop's kept list: it retains every
priority-source candidate and at most `MAX_BEST_MATCHES` non-priority ones
(hence its length is at most `10 + #priority`, which can exceed 10 when
priority listings appear after the cap is filled); both the kept and the
displaced listings preserve their original relative order, and the displaced
ones are appended after the pre-existing `other_jobs`. -/
theorem C2_amended (q : JobQueryStructured) (jobs : List JobListing)
    (h : (rank_partition q jobs).1.length > MAX_BEST_MATCHES) :
    (get_recommendation_logic q jobs).best_matches =
      (overflow_loop (rank_partition q jobs).1 [] []).1 ∧
    (get_recommendation_logic q jobs).other_jobs =
      (rank_partition q jobs).2 ++ (overflow_loop (rank_partition q jobs).1 [] []).2 ∧
    (get_recommendation_logic q jobs).best_matches.countP is_priority_source =
      (rank_partition q jobs).1.countP is_priority_source ∧
    (get_recommendation_logic q jobs).best_matches.countP
        (fun j => !is_priority_source j) ≤ MAX_BEST_MATCHES ∧
    (get_recommendation_logic q jobs).best_matches.length ≤
      MAX_BEST_MATCHES + (rank_partition q jobs).1.countP is_priority_source ∧
    (get_recommendation_logic q jobs).best_matches <+ (rank_partition q jobs).1 ∧
    (overflow_loop (rank_partition q jobs).1 [] []).2 <+ (rank_partition q jobs).1 := by
  obtain ⟨hb, ho⟩ := logic_overflow q jobs h
  have hprio : (get_recommendation_logic q jobs).best_matches.countP is_priority_source =
      (rank_partition q jobs).1.countP is_priority_source := by
    rw [hb]
    simpa using overflow_loop_countP_prio (rank_partition q jobs).1 [] []
  have hnonprio : (get_recommendation_logic q jobs).best_matches.countP
      (fun j => !is_priority_source j) ≤ MAX_BEST_MATCHES := by
    rw [hb]
    simpa using overflow_loop_countP_nonprio (rank_partition q jobs).1 [] []
  have hsplit : (get_recommendation_logic q jobs).best_matches.length =
      (get_recommendation_logic q jobs).best_matches.countP is_priority_source +
        (get_recommendation_logic q jobs).best_matches.countP
          (fun j => !is_priority_source j) := by
    simpa using
      List.length_eq_countP_add_countP is_priority_source
        (get_recommendation_logic q jobs).best_matches
  refine ⟨hb, ho, hprio, hnonprio, by omega, ?_, ?_⟩
  · obtain ⟨s, hs, hsub⟩ := overflow_loop_fst_sub (rank_partition q jobs).1 [] []
    rw [hb, hs]
    simpa using hsub
  · obtain ⟨s, hs, hsub⟩ := overflow_loop_snd_sub (rank_partition q jobs).1 [] []
    rw [hs]
    simpa using hsub

/-- C2, witness: the amended statement evaluated on the concrete
11-candidate input, with the cap hypothesis discharged by computation. -/
theorem C2_witness :
    (rank_partition qC2 jobsC2).1.length > MAX_BEST_MATCHES ∧
    (get_recommendation_logic qC2 jobsC2).best_matches.countP is_priority_source =
      (rank_partition qC2 jobsC2).1.countP is_priority_source ∧
    (get_recommendation_logic qC2 jobsC2).best_matches.length ≤
      MAX_BEST_MATCHES + (rank_partition qC2 jobsC2).1.countP is_priority_source :=
  ⟨by decide, (C2_amended qC2 jobsC2 (by decide)).2.2.1,
    (C2_amended qC2 jobsC2 (by decide)).2.2.2.2.1⟩

/-! ### C9 — order preservation within the buckets -/

set_option maxRecDepth 4000 in
/-- C9, counterexample.  The claim asserts that the input order is preserved
within each output bucket.  On `jobsC9`, the displaced listing `jobC9x`
precedes `jobC9y` in the input, both end up in `other_jobs`, but the
displaced listing is appended after the pre-existing other bucket, so
`other_jobs = [jobC9y, jobC9x]` reverses their input order. -/
theorem C9_counterexample :
    (get_recommendation_logic qC9 jobsC9).other_jobs = [jobC9y, jobC9x] ∧
    List.indexOf jobC9x jobsC9 < List.indexOf jobC9y jobsC9 := by
  refine ⟨by decide, by decide⟩

/-- C9, amended.  `best_matches` is always an order-preserving subsequence of
the input; `other_jobs` is the concatenation of two order-preserving
subsequences of the input (the pre-overflow other bucket followed by the
displaced listings); and when the pre-overflow best bucket does not exceed
the cap, `other_jobs` as a whole is an order-preserving subsequence of the
input. -/
theorem C9_amended (q : JobQueryStructured) (jobs : List JobListing) :
    (get_recommendation_logic q jobs).best_matches <+ jobs ∧
    (∃ o1 o2, (get_recommendation_logic q jobs).other_jobs = o1 ++ o2 ∧
      o1 <+ jobs ∧ o2 <+ jobs) ∧
    ((rank_partition q jobs).1.length ≤ MAX_BEST_MATCHES →
      (get_recommendation_logic q jobs).other_jobs <+ jobs) := by
  have hfil := rank_partition_eq q jobs
  have hsub1 : (rank_partition q jobs).1 <+ jobs := by
    rw [hfil]
    exact jobs.filter_sublist
  have hsub2 : (rank_partition q jobs).2 <+ jobs := by
    rw [hfil]
    exact jobs.filter_sublist
  by_cases hov : (rank_partition q jobs).1.length > MAX_BEST_MATCHES
  · obtain ⟨hb, ho⟩ := logic_overflow q jobs hov
    obtain ⟨s, hs, hssub⟩ := overflow_loop_fst_sub (rank_partition q jobs).1 [] []
    obtain ⟨t, ht, htsub⟩ := overflow_loop_snd_sub (rank_partition q jobs).1 [] []
    refine ⟨?_, ⟨(rank_partition q jobs).2,
      (overflow_loop (rank_partition q jobs).1 [] []).2, ho, hsub2, ?_⟩, ?_⟩
    · rw [hb, hs]
      simpa using hssub.trans hsub1
    · rw [ht]
      simpa using htsub.trans hsub1
    · intro hle
      omega
  · obtain ⟨hb, ho⟩ := logic_no_overflow q jobs hov
    refine ⟨?_, ⟨(rank_partition q jobs).2, [], by rw [ho, List.append_nil],
      hsub2, List.nil_sublist _⟩, ?_⟩
    · rw [hb]
      exact hsub1
    · intro _
      rw [ho]
      exact hsub2

/-- C9, witness: the amended statement evaluated on a concrete input with no
overflow, discharging the cap hypothesis of the last conjunct. -/
theorem C9_witness :
    (get_recommendation_logic qC9 [jobC9y]).best_matches <+ [jobC9y] ∧
    (get_recommendation_logic qC9 [jobC9y]).other_jobs <+ [jobC9y] :=
  ⟨(C9_amended qC9 [jobC9y]).1, (C9_amended qC9 [jobC9y]).2.2 (by decide)⟩

/-! ### C3 and C4 — the two ranking branches -/

/-- Membership in the pre-overflow best bucket is the ranking predicate. -/
theorem mem_partition_best (q : JobQueryStructured) (jobs : List JobListing)
    (job : JobListing) (hmem : job ∈ jobs) :
    job ∈ (rank_partition q jobs).1 ↔ rank_pred q job = true := by
  rw [rank_partition_eq]
  simp [List.mem_filter, hmem]

/-- Membership in the pre-overflow other bucket is the negated predicate. -/
theorem mem_partition_other (q : JobQueryStructured) (jobs : List JobListing)
    (job : JobListing) (hmem : job ∈ jobs) :
    job ∈ (rank_partition q jobs).2 ↔ rank_pred q job = false := by
  rw [rank_partition_eq]
  simp [List.mem_filter, hmem]

/-- The Branch A predicate, in propositional form. -/
theorem branchA_best_iff (q : JobQueryStructured) (job : JobListing) :
    branchA_best q job = true ↔
      (job.source ∈ priority_sources ∨
        ∃ skill ∈ extracted_skills q, skill ∉ scheme_skill_names ∧
          (skill.data <:+: (lowerStr job.title).data ∨
           skill.data <:+: (job_desc_lower job).data)) := by
  simp [branchA_best, strIn, List.any_eq_true, List.mem_filter]

/-- The Branch B predicate, in propositional form. -/
theorem branchB_best_iff (q : JobQueryStructured) (job : JobListing) :
    branchB_best q job = true ↔
      ((∃ skill ∈ extracted_skills q, skill.data <:+: (lowerStr job.title).data) ∨
       (∃ skill ∈ extracted_skills q, skill.data <:+: (job_desc_lower job).data) ∨
       (is_entry_level q = true ∧ job.source ∈ priority_sources)) := by
  simp [branchB_best, strIn, List.any_eq_true, and_or_left, exists_or, or_assoc]

/-- C3.  Under the Branch A condition (empty skill set or a scheme keyword,
and entry-level), a listing lands in the best bucket iff its source is a
priority source or some non-scheme skill token occurs in its lower-cased
title or description, else in the other bucket; and on the spec scenario
(`skills=[]`, entry-level, one `data.gov.in` listing and one `Remotive.io`
listing) the former is the sole best match and the latter the sole other
job.  The bucketing statement is about the branch partition of
`main.py` lines 60–79, i.e. before the separate overflow step (claim C2). -/
theorem C3_branchA :
    (∀ (q : JobQueryStructured) (jobs : List JobListing) (job : JobListing),
        branchA_cond q = true → job ∈ jobs →
        ((job ∈ (rank_partition q jobs).1 ↔
            (job.source ∈ priority_sources ∨
              ∃ skill ∈ extracted_skills q, skill ∉ scheme_skill_names ∧
                (skill.data <:+: (lowerStr job.title).data ∨
                 skill.data <:+: (job_desc_lower job).data))) ∧
         (job ∈ (rank_partition q jobs).2 ↔
            ¬(job.source ∈ priority_sources ∨
              ∃ skill ∈ extracted_skills q, skill ∉ scheme_skill_names ∧
                (skill.data <:+: (lowerStr job.title).data ∨
                 skill.data <:+: (job_desc_lower job).data))))) ∧
    (get_recommendation_logic qC3 [jGovC3, jRemC3]).best_matches = [jGovC3] ∧
    (get_recommendation_logic qC3 [jGovC3, jRemC3]).other_jobs = [jRemC3] := by
  refine ⟨?_, by decide, by decide⟩
  intro q jobs job hA hmem
  have hpred : rank_pred q job = branchA_best q job := by simp [rank_pred, hA]
  constructor
  · rw [mem_partition_best q jobs job hmem, hpred, branchA_best_iff]
  · rw [mem_partition_other q jobs job hmem, hpred, ← Bool.not_eq_true,
      branchA_best_iff]

/-- C3, witness: the branch statement applied to the concrete scenario
input, discharging both hypotheses by computation. -/
theorem C3_witness :
    jGovC3 ∈ (rank_partition qC3 [jGovC3, jRemC3]).1 ∧
    jRemC3 ∈ (rank_partition qC3 [jGovC3, jRemC3]).2 :=
  ⟨((C3_branchA.1 qC3 [jGovC3, jRemC3] jGovC3 (by decide) (by decide)).1).mpr
      (Or.inl (by decide)),
   ((C3_branchA.1 qC3 [jGovC3, jRemC3] jRemC3 (by decide) (by decide)).2).mpr
      (by decide)⟩

/-- C4.  Outside the Branch A condition, a listing lands in the best bucket
iff some lower-cased skill token occurs in the lower-cased title, or in the
lower-cased description, or the query is entry-level and the source is a
priority source; else in the other bucket; and on the spec scenario
(`skills=["driver"]`, mid-level) the Delivery Driver Needed listing is the
sole best match and the non-priority Office Assistant listing the sole other
job.  As in C3, the bucketing statement is about the branch partition of
`main.py` lines 80–93, before the overflow step. -/
theorem C4_branchB :
    (∀ (q : JobQueryStructured) (jobs : List JobListing) (job : JobListing),
        branchA_cond q = false → job ∈ jobs →
        ((job ∈ (rank_partition q jobs).1 ↔
            ((∃ skill ∈ extracted_skills q,
                skill.data <:+: (lowerStr job.title).data) ∨
             (∃ skill ∈ extracted_skills q,
                skill.data <:+: (job_desc_lower job).data) ∨
             (is_entry_level q = true ∧ job.source ∈ priority_sources))) ∧
         (job ∈ (rank_partition q jobs).2 ↔
            ¬((∃ skill ∈ extracted_skills q,
                skill.data <:+: (lowerStr job.title).data) ∨
              (∃ skill ∈ extracted_skills q,
                skill.data <:+: (job_desc_lower job).data) ∨
              (is_entry_level q = true ∧ job.source ∈ priority_sources))))) ∧
    (get_recommendation_logic qC4 [jDrvC4, jOffC4]).best_matches = [jDrvC4] ∧
    (get_recommendation_logic qC4 [jDrvC4, jOffC4]).other_jobs = [jOffC4] := by
  refine ⟨?_, by decide, by decide⟩
  intro q jobs job hA hmem
  have hpred : rank_pred q job = branchB_best q job := by simp [rank_pred, hA]
  constructor
  · rw [mem_partition_best q jobs job hmem, hpred, branchB_best_iff]
  · rw [mem_partition_other q jobs job hmem, hpred, ← Bool.not_eq_true,
      branchB_best_iff]

/-- C4, witness: the branch statement applied to the concrete scenario
input, discharging both hypotheses by computation. -/
theorem C4_witness :
    jDrvC4 ∈ (rank_partition qC4 [jDrvC4, jOffC4]).1 ∧
    jOffC4 ∈ (rank_partition qC4 [jDrvC4, jOffC4]).2 :=
  ⟨((C4_branchB.1 qC4 [jDrvC4, jOffC4] jDrvC4 (by decide) (by decide)).1).mpr
      (Or.inl ⟨"driver", by decide, by decide⟩),
   ((C4_branchB.1 qC4 [jDrvC4, jOffC4] jOffC4 (by decide) (by decide)).2).mpr
      (by decide)⟩

/-! ### C5 — partial-failure isolation of the aggregator -/

/-- C5.  For every combination of gathered adapter outcomes, the aggregate is
the concatenation of the successful adapters' lists, its length is the sum of
their individual lengths, and an adapter that raised contributes nothing and
does not disturb the contributions of the others (removing its outcome leaves
the aggregate unchanged). -/
theorem C5_aggregator :
    ∀ results : List FetchOutcome,
      (scrape_all_platforms results).length = (results.map outcomeLen).sum ∧
      scrape_all_platforms results = (results.filterMap outcomeRes?).flatten ∧
      ∀ pre post : List FetchOutcome,
        scrape_all_platforms (pre ++ FetchOutcome.exc :: post) =
          scrape_all_platforms (pre ++ post) := by
  have hlen : ∀ results : List FetchOutcome,
      (scrape_all_platforms results).length = (results.map outcomeLen).sum := by
    intro results
    induction results with
    | nil => rfl
    | cons r rest ih =>
      cases r with
      | res jobs => simp [scrape_all_platforms, outcomeLen, ih]
      | exc => simp [scrape_all_platforms, outcomeLen, ih]
  have hcat : ∀ results : List FetchOutcome,
      scrape_all_platforms results = (results.filterMap outcomeRes?).flatten := by
    intro results
    induction results with
    | nil => rfl
    | cons r rest ih =>
      cases r with
      | res jobs => simp [scrape_all_platforms, outcomeRes?, ih]
      | exc => simp [scrape_all_platforms, outcomeRes?, ih]
  have hexc : ∀ pre post : List FetchOutcome,
      scrape_all_platforms (pre ++ FetchOutcome.exc :: post) =
        scrape_all_platforms (pre ++ post) := by
    intro pre post
    induction pre with
    | nil => simp [scrape_all_platforms]
    | cons r rest ih =>
      cases r with
      | res jobs => simp [scrape_all_platforms, ih]
      | exc => simp [scrape_all_platforms, ih]
  exact fun results => ⟨hlen results, hcat results, hexc⟩

/-! ### C6 — the default behaviour of `safe_get`, and its one raising path -/

/-- C6, counterexample.  The claim asserts that `safe_get` returns without
raising for every input value and every dot-separated key path.  The
superscript `²` satisfies `str.isdigit()`, so on a list the condition
`key.isdigit() and len(value) > int(key)` evaluates `int('²')`, which raises
`ValueError` — an exception absent from the caught
`(KeyError, TypeError, IndexError)` tuple — and `safe_get` raises
(`Option.none` in the embedding) instead of returning the default. -/
theorem C6_counterexample :
    safe_get (PyVal.list [PyVal.int 1]) "²" (PyVal.str "N/A") = Option.none ∧
    pyIsDigit "²" = true ∧ pyInt? "²" = Option.none := by
  refine ⟨rfl, by decide, rfl⟩

/-- C6, amended.  `safe_get` traverses the dot-separated key path and returns
the caller-supplied default whenever the traversal meets an absent dictionary
key, a list position whose key lacks the digit property or whose parsed index
is out of range, a non-traversable value (string, number or `None`), or a
final value of `None`; the single exception that escapes is indexing a list
with a digit-property key that `int()` cannot parse (e.g. `²`), and for every
key path free of such components — in particular every ASCII path — the
function returns without raising. -/
theorem C6_amended :
    (∀ (data : PyVal) (key_path : String) (default : PyVal),
        safe_get data key_path default =
          safeGetKeys (splitDot key_path) data default) ∧
    (∀ (entries : List (String × PyVal)) (key : String) (rest : List String)
        (default : PyVal), lookupKey entries key = Option.none →
        safeGetKeys (key :: rest) (PyVal.dict entries) default = some default) ∧
    (∀ (items : List PyVal) (key : String) (rest : List String)
        (default : PyVal), pyIsDigit key = false →
        safeGetKeys (key :: rest) (PyVal.list items) default = some default) ∧
    (∀ (items : List PyVal) (key : String) (rest : List String)
        (default : PyVal) (n : Nat), pyInt? key = some n →
        ¬ n < items.length →
        safeGetKeys (key :: rest) (PyVal.list items) default = some default) ∧
    (∀ (items : List PyVal) (key : String) (rest : List String)
        (default : PyVal), pyIsDigit key = true → pyInt? key = Option.none →
        safeGetKeys (key :: rest) (PyVal.list items) default = Option.none) ∧
    (∀ (s : String) (key : String) (rest : List String) (default : PyVal),
        safeGetKeys (key :: rest) (PyVal.str s) default = some default) ∧
    (∀ (n : Int) (key : String) (rest : List String) (default : PyVal),
        safeGetKeys (key :: rest) (PyVal.int n) default = some default) ∧
    (∀ (key : String) (rest : List String) (default : PyVal),
        safeGetKeys (key :: rest) PyVal.none default = some default) ∧
    (∀ default : PyVal, safeGetKeys [] PyVal.none default = some default) ∧
    (∀ (keys : List String) (value default : PyVal),
        (∀ k ∈ keys, pyIsDigit k = true → (pyInt? k).isSome = true) →
        (safeGetKeys keys value default).isSome = true) := by
  refine ⟨fun _ _ _ => rfl, ?_, ?_, ?_, ?_, fun _ _ _ _ => rfl,
    fun _ _ _ _ => rfl, fun _ _ _ => rfl, fun _ => rfl, ?_⟩
  · intro entries key rest default h
    simp [safeGetKeys, h]
  · intro items key rest default h
    simp [safeGetKeys, h]
  · intro items key rest default n hn hlt
    by_cases hd : pyIsDigit key = true
    · simp [safeGetKeys, hd, hn, hlt]
    · rw [Bool.not_eq_true] at hd
      simp [safeGetKeys, hd]
  · intro items key rest default hd hn
    simp [safeGetKeys, hd, hn]
  · intro keys
    induction keys with
    | nil => intro value default _; rfl
    | cons key rest ih =>
      intro value default h
      have hrest : ∀ k ∈ rest, pyIsDigit k = true → (pyInt? k).isSome = true :=
        fun k hk => h k (List.mem_cons_of_mem key hk)
      cases value with
      | dict entries =>
        cases hl : lookupKey entries key with
        | none => simp [safeGetKeys, hl]
        | some v =>
          simp only [safeGetKeys, hl]
          exact ih v default hrest
      | list items =>
        by_cases hd : pyIsDigit key = true
        · have hs := h key (List.mem_cons_self key rest) hd
          cases hp : pyInt? key with
          | none => rw [hp] at hs; exact absurd hs (by decide)
          | some n =>
            simp only [safeGetKeys, hd, if_true, hp]
            by_cases hn : n < items.length
            · rw [dif_pos hn]
              exact ih _ default hrest
            · rw [dif_neg hn]
              rfl
        · rw [Bool.not_eq_true] at hd
          simp [safeGetKeys, hd]
      | str ss => rfl
      | int n => rfl
      | none => rfl

/-- C6, witness: the default substitutions and the conditional totality
evaluated on concrete inputs, with the hypotheses discharged by computation. -/
theorem C6_witness :
    safeGetKeys ["missing"] (PyVal.dict [("present", PyVal.int 1)])
        (PyVal.str "N/A") = some (PyVal.str "N/A") ∧
    safeGetKeys ["x"] (PyVal.list [PyVal.int 1]) (PyVal.str "N/A") =
      some (PyVal.str "N/A") ∧
    safeGetKeys ["5"] (PyVal.list [PyVal.int 1]) (PyVal.str "N/A") =
      some (PyVal.str "N/A") ∧
    (safeGetKeys ["location", "0"] (PyVal.dict [("location", PyVal.none)])
        (PyVal.str "N/A")).isSome = true :=
  ⟨C6_amended.2.1 [("present", PyVal.int 1)] "missing" [] (PyVal.str "N/A") rfl,
   C6_amended.2.2.1 [PyVal.int 1] "x" [] (PyVal.str "N/A") (by decide),
   C6_amended.2.2.2.1 [PyVal.int 1] "5" [] (PyVal.str "N/A") 5 rfl (by decide),
   C6_amended.2.2.2.2.2.2.2.2.2 ["location", "0"]
     (PyVal.dict [("location", PyVal.none)]) (PyVal.str "N/A") (by decide)⟩

/-! ### C7 — missing configuration is a silent empty result -/

/-- C7.  For every credential-requiring adapter of the repository — Adzuna,
Jooble, The Muse, USAJobs (authenticated), Mantiks, MGNREGA, PMKVY and NCS —
a missing (or empty) required environment variable makes `fetch` return the
empty listing sequence immediately, for every query and every provider
response; the adapters whose only uncaught exception lies elsewhere return
`some []` (`some` recording that no exception escapes on this path). -/
theorem C7_missing_config :
    ∀ (env : Env) (query : JobQueryStructured) (resp : Option PyVal),
      ((truthy env.ADZUNA_APP_ID = false ∨ truthy env.ADZUNA_APP_KEY = false) →
        fetch_adzuna_jobs env query resp = some []) ∧
      (truthy env.JOOBLE_API_KEY = false →
        fetch_jooble_jobs env query resp = some []) ∧
      (truthy env.THE_MUSE_API_KEY = false →
        fetch_the_muse_jobs env query resp = []) ∧
      ((truthy env.USAJOBS_EMAIL = false ∨
          truthy env.USAJOBS_API_KEY = false) →
        fetch_usajobs_auth env query resp = some []) ∧
      ((truthy env.RAPIDAPI_KEY = false ∨ truthy env.RAPIDAPI_HOST = false) →
        fetch_mantiks_jobs env query resp = some []) ∧
      (truthy env.DATA_GOV_IN_API_KEY = false →
        fetch_mgnrega_data env query resp = []) ∧
      ((truthy env.API_SETU_CLIENT_ID = false ∨
          truthy env.API_SETU_CLIENT_SECRET = false) →
        fetch_pmkvy_centers env query = []) ∧
      (truthy env.NCS_API_KEY = false → fetch_ncs_jobs env query = []) := by
  intro env query resp
  refine ⟨?_, ?_, ?_, ?_, ?_, ?_, ?_, ?_⟩
  · intro h
    rcases h with h | h <;> simp [fetch_adzuna_jobs, h]
  · intro h
    simp [fetch_jooble_jobs, h]
  · intro h
    simp [fetch_the_muse_jobs, h]
  · intro h
    rcases h with h | h <;> simp [fetch_usajobs_auth, h]
  · intro h
    rcases h with h | h <;> simp [fetch_mantiks_jobs, h]
  · intro h
    simp [fetch_mgnrega_data, h]
  · intro h
    rcases h with h | h <;> simp [fetch_pmkvy_centers, h]
  · intro h
    simp [fetch_ncs_jobs, h]

/-- C7, witness: every credential-requiring adapter evaluated with an
entirely unset environment. -/
theorem C7_witness :
    fetch_adzuna_jobs envNone qAd Option.none = some [] ∧
    fetch_jooble_jobs envNone qAd Option.none = some [] ∧
    fetch_the_muse_jobs envNone qAd Option.none = [] ∧
    fetch_usajobs_auth envNone qAd Option.none = some [] ∧
    fetch_mantiks_jobs envNone qAd Option.none = some [] ∧
    fetch_mgnrega_data envNone qAd Option.none = [] ∧
    fetch_pmkvy_centers envNone qAd = [] ∧
    fetch_ncs_jobs envNone qAd = [] :=
  ⟨(C7_missing_config envNone qAd Option.none).1 (Or.inl rfl),
   (C7_missing_config envNone qAd Option.none).2.1 rfl,
   (C7_missing_config envNone qAd Option.none).2.2.1 rfl,
   (C7_missing_config envNone qAd Option.none).2.2.2.1 (Or.inl rfl),
   (C7_missing_config envNone qAd Option.none).2.2.2.2.1 (Or.inl rfl),
   (C7_missing_config envNone qAd Option.none).2.2.2.2.2.1 rfl,
   (C7_missing_config envNone qAd Option.none).2.2.2.2.2.2.1 (Or.inl rfl),
   (C7_missing_config envNone qAd Option.none).2.2.2.2.2.2.2 rfl⟩

/-! ### C8 — description snippets: length bound and `<br>` stripping -/

/-- Replacing `<br>` never lengthens the character list. -/
theorem replace_br_length (l : List Char) : (replace_br l).length ≤ l.length := by
  induction l using replace_br.induct with
  | case1 rest ih =>
    rw [replace_br.eq_1]
    simp only [List.length_cons]
    omega
  | case2 c rest h ih =>
    rw [replace_br.eq_2 c rest h]
    simp only [List.length_cons]
    omega
  | case3 => simp [replace_br]

/-- A space-free prefix of the replaced list was already a prefix of the
input (replacements only ever emit a space). -/
theorem replace_br_isPrefixOf (l : List Char) :
    ∀ p : List Char, ' ' ∉ p → p.isPrefixOf (replace_br l) = true →
      p.isPrefixOf l = true := by
  induction l using replace_br.induct with
  | case1 rest ih =>
    intro p hsp hpre
    cases p with
    | nil => rfl
    | cons x p' =>
      rw [replace_br.eq_1] at hpre
      simp only [List.isPrefixOf, Bool.and_eq_true, beq_iff_eq] at hpre
      obtain ⟨hx1, hx2⟩ := hpre
      subst hx1
      exact absurd (List.mem_cons_self _ _) hsp
  | case2 c rest h ih =>
    intro p hsp hpre
    cases p with
    | nil => rfl
    | cons x p' =>
      rw [replace_br.eq_2 c rest h] at hpre
      simp only [List.isPrefixOf, Bool.and_eq_true] at hpre ⊢
      exact ⟨hpre.1, ih p' (fun hm => hsp (List.mem_cons_of_mem x hm)) hpre.2⟩
  | case3 =>
    intro p hsp hpre
    rw [replace_br.eq_3] at hpre
    cases p with
    | nil => rfl
    | cons x p' => simp [List.isPrefixOf] at hpre

/-- After replacement the list contains no occurrence of `<br>`. -/
theorem replace_br_no_br (l : List Char) : hasBr (replace_br l) = false := by
  induction l using replace_br.induct with
  | case1 rest ih =>
    rw [replace_br.eq_1, hasBr]
    simp [ih, List.isPrefixOf]
  | case2 c rest h ih =>
    rw [replace_br.eq_2 c rest h, hasBr]
    simp only [ih, Bool.or_false]
    by_contra hx
    rw [Bool.not_eq_false] at hx
    simp only [List.isPrefixOf, Bool.and_eq_true, beq_iff_eq] at hx
    have hbr := replace_br_isPrefixOf rest ['b', 'r', '>'] (by decide) hx.2
    rw [List.isPrefixOf_iff_prefix] at hbr
    obtain ⟨t, ht⟩ := hbr
    exact h t hx.1.symm (by simpa using ht.symm)
  | case3 =>
    rw [replace_br.eq_3]
    rfl

/-- The Boolean search `hasBr` decides substring containment of `<br>`. -/
theorem hasBr_iff (l : List Char) :
    hasBr l = true ↔ ['<', 'b', 'r', '>'] <:+: l := by
  induction l with
  | nil => simp [hasBr]
  | cons c rest ih =>
    rw [hasBr]
    simp [Bool.or_eq_true, ih, List.infix_cons_iff, List.isPrefixOf_iff_prefix]

/-- Appending the ellipsis cannot create a `<br>` prefix (no pattern
character is a dot). -/
theorem brPre_append_dots (l : List Char) :
    ['<', 'b', 'r', '>'].isPrefixOf (l ++ ['.', '.', '.']) =
      ['<', 'b', 'r', '>'].isPrefixOf l := by
  match l with
  | [] => decide
  | [a] => simp [List.isPrefixOf]
  | [a, b] => simp [List.isPrefixOf]
  | [a, b, c] => simp [List.isPrefixOf]
  | a :: b :: c :: d :: rest => simp [List.isPrefixOf]

/-- Appending the ellipsis cannot create an occurrence of `<br>`. -/
theorem hasBr_append_dots (l : List Char) (h : hasBr l = false) :
    hasBr (l ++ ['.', '.', '.']) = false := by
  induction l with
  | nil => decide
  | cons c rest ih =>
    rw [hasBr] at h
    simp only [Bool.or_eq_false_iff] at h
    rw [List.cons_append, hasBr]
    simp only [Bool.or_eq_false_iff]
    refine ⟨?_, ih h.2⟩
    rw [← List.cons_append, brPre_append_dots]
    exact h.1

/-- Appending a string to a `String.mk` concatenates the character lists. -/
theorem mk_append_data (l : List Char) (t : String) :
    (String.mk l ++ t).data = l ++ t.data := rfl

/-- Length of a `String.mk` followed by a string. -/
theorem mk_append_length (l : List Char) (t : String) :
    (String.mk l ++ t).length = l.length + t.length := by
  show (String.mk l ++ t).data.length = l.length + t.length
  rw [mk_append_data, List.length_append]
  rfl

/-- Every listing the adapter loop emits beyond the accumulator comes from
one item accepted by the per-item constructor. -/
theorem adapterLoop_mem (mk : PyVal → Option JobListing) (items : List PyVal) :
    ∀ (acc : List JobListing) (x : JobListing), x ∈ adapterLoop mk items acc →
      x ∈ acc ∨ ∃ item, mk item = some x := by
  induction items with
  | nil => intro acc x hx; exact Or.inl hx
  | cons it rest ih =>
    intro acc x hx
    cases hmk : mk it with
    | none =>
      simp only [adapterLoop, hmk] at hx
      exact Or.inl hx
    | some j =>
      simp only [adapterLoop, hmk] at hx
      rcases ih (acc ++ [j]) x hx with hmem | hex
      · rcases List.mem_append.1 hmem with h2 | h2
        · exact Or.inl h2
        · rw [List.mem_singleton] at h2
          exact Or.inr ⟨it, by rw [h2]; exact hmk⟩
      · exact Or.inr hex

/-- Every listing Remotive emits comes from one accepted response item. -/
theorem fetch_remotive_mem (query : JobQueryStructured) (resp : Option PyVal)
    (job : JobListing) (h : job ∈ fetch_remotive_jobs query resp) :
    ∃ item, remotiveItem item = some job := by
  cases resp with
  | none => simp [fetch_remotive_jobs] at h
  | some data =>
    cases hd : dictGet data "jobs" (PyVal.list []) with
    | none => simp [fetch_remotive_jobs, hd] at h
    | some v =>
      cases hi : pyIter v with
      | none => simp [fetch_remotive_jobs, hd, hi] at h
      | some items =>
        simp only [fetch_remotive_jobs, hd, hi] at h
        rcases adapterLoop_mem remotiveItem items [] job h with h2 | h2
        · simp at h2
        · exact h2

/-- The snippet of every accepted Remotive item is the truncated, stripped
description followed by the ellipsis. -/
theorem remotiveItem_snippet (item : PyVal) (job : JobListing)
    (h : remotiveItem item = some job) :
    ∃ d : String,
      job.description_snippet =
        some (String.mk (replace_br (d.data.take 250)) ++ "...") := by
  simp only [remotiveItem, Option.bind_eq_some, Option.map_eq_some'] at h
  obtain ⟨t, ht, c, hc, l, hl, u, hu, d, hd, hjob⟩ := h
  exact ⟨d, by rw [← hjob]⟩

set_option maxRecDepth 40000 in
/-- C8, counterexample.  The claim asserts that every adapter bounds
`description_snippet` to roughly 250 characters and strips `<br>` markup.
The Adzuna adapter (`api_client.py` line 153) passes the provider description
through `safe_get` unmodified: on a 260-character description containing
`<br>`, the emitted listing's snippet is that very string — longer than the
253-character bound the truncating adapters actually guarantee, with the
markup intact. -/
theorem C8_counterexample :
    fetch_adzuna_jobs envC8 qAd respC8 = some [listingC8] ∧
    listingC8.description_snippet = some brStrC8 ∧
    253 < brStrC8.length ∧
    (['<', 'b', 'r', '>'] <:+: brStrC8.data) := by
  refine ⟨rfl, rfl, by decide, by decide⟩

/-- C8, amended.  The Remotive adapter emits snippets of length at most 253
(250 characters of description plus the ellipsis) containing no `<br>`
occurrence; the Adzuna adapter emits the provider description unmodified
(neither truncated nor stripped). -/
theorem C8_amended :
    (∀ (query : JobQueryStructured) (resp : Option PyVal) (job : JobListing),
        job ∈ fetch_remotive_jobs query resp →
        ∃ snip : String, job.description_snippet = some snip ∧
          snip.length ≤ 253 ∧ ¬(['<', 'b', 'r', '>'] <:+: snip.data)) ∧
    (∀ (item : PyVal) (job : JobListing), adzunaItem item = some job →
        job.description_snippet =
          (safe_get item "description" (PyVal.str "")).bind pyStr?) := by
  constructor
  · intro query resp job hmem
    obtain ⟨item, hitem⟩ := fetch_remotive_mem query resp job hmem
    obtain ⟨d, hd⟩ := remotiveItem_snippet item job hitem
    refine ⟨_, hd, ?_, ?_⟩
    · rw [mk_append_length]
      have h1 := replace_br_length (d.data.take 250)
      have h2 : (d.data.take 250).length ≤ 250 := by
        rw [List.length_take]
        exact Nat.min_le_left _ _
      have h3 : ("..." : String).length = 3 := rfl
      rw [h3]
      omega
    · rw [← hasBr_iff, mk_append_data,
        show ("..." : String).data = ['.', '.', '.'] from rfl,
        hasBr_append_dots _ (replace_br_no_br _)]
      simp
  · intro item job h
    simp only [adzunaItem, Option.bind_eq_some, Option.map_eq_some'] at h
    obtain ⟨t, ht, c, hc, l, hl, u, hu, d, ⟨dv, hdv, hds⟩, hjob⟩ := h
    rw [← hjob, hdv]
    simp only [Option.some_bind, hds]

set_option maxRecDepth 40000 in
/-- C8, witness: the amended statement evaluated on a concrete Remotive
response (truncation and stripping observed) and the concrete Adzuna item of
the counterexample (pass-through observed). -/
theorem C8_witness :
    (∃ snip : String, jobC8w.description_snippet = some snip ∧
        snip.length ≤ 253 ∧ ¬(['<', 'b', 'r', '>'] <:+: snip.data)) ∧
    listingC8.description_snippet =
      (safe_get itemC8 "description" (PyVal.str "")).bind pyStr? :=
  ⟨C8_amended.1 qAd respC8w jobC8w (by decide),
   C8_amended.2 itemC8 listingC8 rfl⟩

/-! ### C10 — the government adapters' source labels are the priority set -/

/-- C10.  Every listing the MGNREGA adapter emits carries source
`data.gov.in`, every PMKVY listing carries `api.setu.in`, every NCS listing
carries `ncs.gov.in`, and these three labels are exactly the members of the
ranker's `priority_sources`, so the entry-level priority treatment applies
precisely to these adapters' output. -/
theorem C10_sources :
    (∀ (env : Env) (query : JobQueryStructured) (resp : Option PyVal)
        (job : JobListing), job ∈ fetch_mgnrega_data env query resp →
        job.source = "data.gov.in") ∧
    (∀ (env : Env) (query : JobQueryStructured) (job : JobListing),
        job ∈ fetch_pmkvy_centers env query → job.source = "api.setu.in") ∧
    (∀ (env : Env) (query : JobQueryStructured) (job : JobListing),
        job ∈ fetch_ncs_jobs env query → job.source = "ncs.gov.in") ∧
    priority_sources = ["data.gov.in", "api.setu.in", "ncs.gov.in"] := by
  refine ⟨?_, ?_, ?_, rfl⟩
  · intro env query resp job h
    by_cases hk : truthy env.DATA_GOV_IN_API_KEY = true
    · cases resp with
      | none => simp [fetch_mgnrega_data, hk] at h
      | some data =>
        cases hd : dictGet data "records" (PyVal.list []) with
        | none => simp [fetch_mgnrega_data, hk, hd] at h
        | some v =>
          cases hi : pyIter v with
          | none => simp [fetch_mgnrega_data, hk, hd, hi] at h
          | some items =>
            simp only [fetch_mgnrega_data, hk, if_true, Bool.not_true,
              Bool.false_eq_true, if_false, hd, hi] at h
            rcases adapterLoop_mem mgnregaItem items [] job h with h2 | h2
            · simp at h2
            · obtain ⟨it, hit⟩ := h2
              simp only [mgnregaItem, Option.bind_eq_some,
                Option.map_eq_some'] at hit
              obtain ⟨dn, hdn, sn, hsn, tw, htw, tj, htj, hjob⟩ := hit
              rw [← hjob]
    · rw [Bool.not_eq_true] at hk
      simp [fetch_mgnrega_data, hk] at h
  · intro env query job h
    by_cases hk : (truthy env.API_SETU_CLIENT_ID &&
        truthy env.API_SETU_CLIENT_SECRET) = true
    · simp only [fetch_pmkvy_centers, hk, Bool.not_true, Bool.false_eq_true,
        if_false, List.mem_singleton] at h
      rw [h]
    · rw [Bool.not_eq_true] at hk
      simp [fetch_pmkvy_centers, hk] at h
  · intro env query job h
    by_cases hk : truthy env.NCS_API_KEY = true
    · simp only [fetch_ncs_jobs, hk, Bool.not_true, Bool.false_eq_true,
        if_false, List.mem_singleton] at h
      rw [h]
    · rw [Bool.not_eq_true] at hk
      simp [fetch_ncs_jobs, hk] at h

/-- C10, witness: the three adapters evaluated on concrete inputs, with the
membership hypotheses discharged by computation. -/
theorem C10_witness :
    jobMgC10.source = "data.gov.in" ∧
    jobPmkvyC10.source = "api.setu.in" ∧
    jobNcsC10.source = "ncs.gov.in" :=
  ⟨C10_sources.1 envC10 qAd respC10 jobMgC10 (by decide),
   C10_sources.2.1 envC10 qAd jobPmkvyC10 (by decide),
   C10_sources.2.2.1 envC10 qAd jobNcsC10 (by decide)⟩
